import Mathlib

/-!
Verification development for the runtime core of the Lilja game
(`src/unnamed/part_000` defining `Lilja.Level`, and `src/core/main.js`
defining `Lilja.Main`).

The embedding is shallow:

* the per-frame collision sweep of `Lilja.Level.handleCollisions`
  (part_000 lines 97–104) is modelled as a pure function on a `World`
  record, with the engine collaborator
  `collide(groupA, groupB, onHit, shouldProcess?)` modelled as iteration
  over the overlapping pairs of the two groups, invoking the handler once
  per overlapping pair, gated by the process callback, and skipping
  bodies that have been disabled (the engine skips inert bodies);

* the level lifecycle (constructor, `create`, `createObjects`, `intro`,
  tween/dialogue/timer callbacks) is modelled as a state machine
  `LevelSM` that records every engine-collaborator call in a trace;

* `Lilja.Main` (`main.js`) is modelled the same way: pure handler
  functions `_bulletWallCollision` / `_bulletEnemyCollision` and an
  `update` function guarded by the `_running` flag.

Methods of classes that belong to this repository but are not under
`src/` (`Lilja.Player.hit`, `Lilja.Zombie.hit`/`onHit`,
`Lilja.Bullet.hit`) are modelled from the spec; each such definition
carries a doc comment saying exactly what is modelled.
-/

namespace Lilja

/-- Axis-aligned bounding box of an actor, integer-valued. `x1 ≤ x2` and
`y1 ≤ y2` hold for the boxes of interest; overlap is strict interval
intersection on both axes. -/
structure AABB where
  x1 : Int
  y1 : Int
  x2 : Int
  y2 : Int
deriving DecidableEq, Repr

/-- Strict AABB overlap test, the spatial overlap query of the engine
collaborator (spec section 6). -/
def AABB.overlaps (a b : AABB) : Bool :=
  decide (a.x1 < b.x2) && decide (b.x1 < a.x2) &&
  decide (a.y1 < b.y2) && decide (b.y1 < a.y2)

/-- The player actor: bounds, health, the `invincible` flag read by
`_playerEnemyProcess` (part_000 line 126) and the `disableControls` flag
toggled by `intro` / `_startMission`. -/
structure Player where
  bounds : AABB
  health : Int
  invincible : Bool
  disableControls : Bool
deriving DecidableEq, Repr

/-- An enemy actor: bounds, health, and its contact `damage` read by
`_playerEnemyCollision` (part_000 line 133). -/
structure Enemy where
  bounds : AABB
  health : Int
  damage : Int
deriving DecidableEq, Repr

/-- A bullet actor: bounds, its configured `damage`, and whether it has
been disabled by a hit. -/
structure Bullet where
  bounds : AABB
  damage : Int
  disabled : Bool
deriving DecidableEq, Repr

/-- Modelled from the spec: `Lilja.Player.prototype.hit` is repository
code not under `src/`. Section 4.1 gives the Player–Enemy effect as
`Damage(enemy.damage)`, and the section 8 two-enemy scenario makes the
damage cumulative within a frame (health decreases by 5 then 7), so
`hit` decreases health by the damage argument and changes nothing else. -/
def Player.hit (p : Player) (damage : Int) : Player :=
  { p with health := p.health - damage }

/-- Modelled from the spec: `Lilja.Zombie`'s hit reaction is repository
code not under `src/`. Section 4.1 gives the Bullet–Enemy effect on the
enemy as `Damage(bulletDamage)`: health decreases by the bullet's
configured damage. -/
def Enemy.hit (e : Enemy) (b : Bullet) : Enemy :=
  { e with health := e.health - b.damage }

/-- Modelled from the spec: `Lilja.Bullet.prototype.hit` is repository
code not under `src/`. Section 3: the bullet "transitions to a
disabled/inert visual state on any wall or enemy collision". The
argument passed in the source (`wall` or `enemy`) does not influence the
bullet's own transition, so it is dropped here. -/
def Bullet.hit (b : Bullet) : Bullet :=
  { b with disabled := true }

/-- A gameplay effect fired by a collision handler during one
`handleCollisions` sweep. The purely physical passes (player–terrain,
enemies–terrain, giblets–terrain) have no handler and fire no event. -/
inductive HitEvent where
  | playerHit (damage : Int)
  | bulletWall
  | bulletEnemy (damage : Int)
deriving DecidableEq, Repr

/-- `_playerEnemyProcess` (part_000 lines 125–127): the process callback
of the player–enemies pass returns `!player.invincible`. -/
def Level.playerEnemyProcess (p : Player) (_e : Enemy) : Bool :=
  !p.invincible

/-- `_playerEnemyCollision` (part_000 lines 132–134):
`player.hit(enemy.damage)`. -/
def Level.playerEnemyCollision (p : Player) (e : Enemy) : Player :=
  p.hit e.damage

/-- The player–enemies pass: the collide collaborator invokes the
handler once per overlapping pair, gated by the process callback
evaluated before the handler (part_000 line 98). -/
def playerEnemiesPass : Player → List Enemy → Player × List HitEvent
  | p, [] => (p, [])
  | p, e :: es =>
    if p.bounds.overlaps e.bounds && Level.playerEnemyProcess p e then
      let r := playerEnemiesPass (Level.playerEnemyCollision p e) es
      (r.1, HitEvent.playerHit e.damage :: r.2)
    else
      playerEnemiesPass p es

/-- One bullet against the map layer's collidable tiles
(`_bulletWallCollision`, part_000 lines 118–120: `bullet.hit(wall)`); a
bullet disabled by an earlier pair is inert and skipped. -/
def bulletTilesPass : Bullet → List AABB → Bullet × List HitEvent
  | b, [] => (b, [])
  | b, t :: ts =>
    if !b.disabled && b.bounds.overlaps t then
      let r := bulletTilesPass b.hit ts
      (r.1, HitEvent.bulletWall :: r.2)
    else
      bulletTilesPass b ts

/-- The bullets–terrain pass (part_000 line 99). -/
def bulletsTerrainPass : List Bullet → List AABB → List Bullet × List HitEvent
  | [], _ => ([], [])
  | b :: bs, ts =>
    let r := bulletTilesPass b ts
    let rest := bulletsTerrainPass bs ts
    (r.1 :: rest.1, r.2 ++ rest.2)

/-- One bullet against the enemy group (`_bulletEnemyCollision`,
part_000 lines 141–144: `enemy.hit(bullet); bullet.hit(enemy)`); a
disabled bullet is inert and skipped. -/
def bulletEnemiesStep : Bullet → List Enemy → Bullet × List Enemy × List HitEvent
  | b, [] => (b, [], [])
  | b, e :: es =>
    if !b.disabled && b.bounds.overlaps e.bounds then
      let r := bulletEnemiesStep b.hit es
      (r.1, e.hit b :: r.2.1, HitEvent.bulletEnemy b.damage :: r.2.2)
    else
      let r := bulletEnemiesStep b es
      (r.1, e :: r.2.1, r.2.2)

/-- The bullets–enemies pass (part_000 line 100). -/
def bulletsEnemiesPass : List Bullet → List Enemy → List Bullet × List Enemy × List HitEvent
  | [], es => ([], es, [])
  | b :: bs, es =>
    let r := bulletEnemiesStep b es
    let rest := bulletsEnemiesPass bs r.2.1
    (r.1 :: rest.1, rest.2.1, r.2.2 ++ rest.2.2)

/-- The mutable actor state touched by one `handleCollisions` sweep:
the player, the enemy group, the bullet group and the collidable tiles
of the map layer. -/
structure World where
  player : Player
  enemies : List Enemy
  bullets : List Bullet
  mapTiles : List AABB
deriving DecidableEq, Repr

/-- `Lilja.Level.prototype.handleCollisions` (part_000 lines 97–104):
player–enemies with process callback, then bullets–mapLayer, then
bullets–enemies, each applying its handler's effects immediately per
pair; the player–mapLayer, enemies–mapLayer and giblets–mapLayer passes
have no handler (pure physical blocking) and change none of the
modelled gameplay state. Returns the new world and the ordered trace of
handler-fired effects. -/
def Level.handleCollisions (w : World) : World × List HitEvent :=
  let r1 := playerEnemiesPass w.player w.enemies
  let r2 := bulletsTerrainPass w.bullets w.mapTiles
  let r3 := bulletsEnemiesPass r2.1 w.enemies
  ({ player := r1.1, enemies := r3.2.1, bullets := r3.1, mapTiles := w.mapTiles },
   r1.2 ++ r2.2 ++ r3.2.2)

/-- The actor groups named in `handleCollisions`. -/
inductive Group where
  | player
  | enemies
  | bullets
  | mapLayer
  | giblets
deriving DecidableEq, Repr

/-- The ordered list of `collide` calls issued by `handleCollisions`,
one entry per source line 98–103 of part_000, in source order. -/
def handleCollisionsPasses : List (Group × Group) :=
  [(Group.player, Group.enemies),
   (Group.bullets, Group.mapLayer),
   (Group.bullets, Group.enemies),
   (Group.player, Group.mapLayer),
   (Group.enemies, Group.mapLayer),
   (Group.giblets, Group.mapLayer)]

/-- The player–enemies pass is the identity on an invincible player:
the process callback is evaluated before the handler on every pair. -/
theorem playerEnemiesPass_invincible (p : Player) (es : List Enemy)
    (h : p.invincible = true) : playerEnemiesPass p es = (p, []) := by
  induction es with
  | nil => rfl
  | cons e es ih =>
    simp [playerEnemiesPass, Level.playerEnemyProcess, h, ih]

end Lilja

open Lilja

/-- C1: in any frame where the player is invincible, `handleCollisions`
leaves the player's health unchanged — the Player–Enemy process
callback `!player.invincible` is evaluated before the collision handler
on every overlapping pair, so no partial damage is ever applied. -/
theorem lilja_C1 (w : World) (h : w.player.invincible = true) :
    (Level.handleCollisions w).1.player.health = w.player.health := by
  simp [Level.handleCollisions, playerEnemiesPass_invincible w.player w.enemies h]

/-- C1 witness: a concrete frame with the invincible player overlapping
an enemy; health is unchanged by the sweep. -/
theorem lilja_C1_witness :
    (World.mk ⟨⟨0, 0, 10, 10⟩, 10, true, false⟩ [⟨⟨5, 5, 15, 15⟩, 3, 4⟩] [] []).player.invincible = true
    ∧ (Level.handleCollisions
        (World.mk ⟨⟨0, 0, 10, 10⟩, 10, true, false⟩ [⟨⟨5, 5, 15, 15⟩, 3, 4⟩] [] [])).1.player.health
      = (World.mk ⟨⟨0, 0, 10, 10⟩, 10, true, false⟩ [⟨⟨5, 5, 15, 15⟩, 3, 4⟩] [] []).player.health :=
  ⟨by decide,
   lilja_C1 (World.mk ⟨⟨0, 0, 10, 10⟩, 10, true, false⟩ [⟨⟨5, 5, 15, 15⟩, 3, 4⟩] [] []) (by decide)⟩

/-- The player–enemies pass fires only `playerHit` events, never a
terrain (`bulletWall`) effect. -/
theorem playerEnemiesPass_count_bulletWall (p : Player) (es : List Enemy) :
    (playerEnemiesPass p es).2.count HitEvent.bulletWall = 0 := by
  induction es generalizing p with
  | nil => rfl
  | cons e es ih =>
    by_cases h : (p.bounds.overlaps e.bounds && Level.playerEnemyProcess p e) = true
    · simp [playerEnemiesPass, h, List.count_cons, ih]
    · simp [playerEnemiesPass, h, ih]

/-- The player–enemies pass fires no `bulletEnemy` events either. -/
theorem playerEnemiesPass_count_bulletEnemy (p : Player) (es : List Enemy) (d : Int) :
    (playerEnemiesPass p es).2.count (HitEvent.bulletEnemy d) = 0 := by
  induction es generalizing p with
  | nil => rfl
  | cons e es ih =>
    by_cases h : (p.bounds.overlaps e.bounds && Level.playerEnemyProcess p e) = true
    · simp [playerEnemiesPass, h, List.count_cons, ih]
    · simp [playerEnemiesPass, h, ih]

/-- A bullet overlapping no tile passes through the terrain pass
unchanged, firing no event. -/
theorem bulletTilesPass_no_overlap (b : Bullet) (ts : List AABB)
    (h : ∀ t ∈ ts, b.bounds.overlaps t = false) :
    bulletTilesPass b ts = (b, []) := by
  induction ts with
  | nil => rfl
  | cons t ts ih =>
    have ht : b.bounds.overlaps t = false := h t (List.mem_cons_self t ts)
    simp only [bulletTilesPass, ht, Bool.and_false, Bool.false_eq_true, if_false]
    exact ih fun u hu => h u (List.mem_cons_of_mem t hu)

/-- C2: `handleCollisions` performs the five pairwise overlap passes in
exactly the claimed fixed order — player–enemies, bullets–terrain,
bullets–enemies, player–terrain, enemies–terrain — each exactly once
per frame (they are the first five collide calls of the sweep; a sixth
giblets–terrain pass follows them, see C9). -/
theorem lilja_C2 :
    handleCollisionsPasses.take 5 =
      [(Group.player, Group.enemies),
       (Group.bullets, Group.mapLayer),
       (Group.bullets, Group.enemies),
       (Group.player, Group.mapLayer),
       (Group.enemies, Group.mapLayer)]
    ∧ handleCollisionsPasses.count (Group.player, Group.enemies) = 1
    ∧ handleCollisionsPasses.count (Group.bullets, Group.mapLayer) = 1
    ∧ handleCollisionsPasses.count (Group.bullets, Group.enemies) = 1
    ∧ handleCollisionsPasses.count (Group.player, Group.mapLayer) = 1
    ∧ handleCollisionsPasses.count (Group.enemies, Group.mapLayer) = 1 := by
  decide

/-- C7: a frame with one bullet whose bounds overlap an enemy's bounds
but no terrain tile — one `handleCollisions` sweep deals the enemy
damage equal to the bullet's configured damage, disables the bullet,
and records no terrain effect (no `bulletWall` event); exactly one
bullet–enemy effect fires. -/
theorem lilja_C7 (p : Player) (e : Enemy) (b : Bullet) (tiles : List AABB)
    (hb : b.disabled = false)
    (hov : b.bounds.overlaps e.bounds = true)
    (ht : ∀ t ∈ tiles, b.bounds.overlaps t = false) :
    (Level.handleCollisions (World.mk p [e] [b] tiles)).1.enemies
        = [{ e with health := e.health - b.damage }]
    ∧ (Level.handleCollisions (World.mk p [e] [b] tiles)).1.bullets
        = [{ b with disabled := true }]
    ∧ (Level.handleCollisions (World.mk p [e] [b] tiles)).2.count HitEvent.bulletWall = 0
    ∧ (Level.handleCollisions (World.mk p [e] [b] tiles)).2.count (HitEvent.bulletEnemy b.damage) = 1 := by
  have h2 : bulletsTerrainPass [b] tiles = ([b], []) := by
    simp [bulletsTerrainPass, bulletTilesPass_no_overlap b tiles ht]
  have h3 : bulletsEnemiesPass [b] [e]
      = ([b.hit], [e.hit b], [HitEvent.bulletEnemy b.damage]) := by
    simp [bulletsEnemiesPass, bulletEnemiesStep, hb, hov]
  refine ⟨?_, ?_, ?_, ?_⟩ <;>
    simp [Level.handleCollisions, h2, h3, Bullet.hit, Enemy.hit,
          List.count_append, playerEnemiesPass_count_bulletWall,
          playerEnemiesPass_count_bulletEnemy]

/-- C7 witness: concrete bullet at (0,0)–(4,4) overlapping an enemy at
(2,0)–(8,4) and missing the single terrain tile at (100,100)–(110,110). -/
theorem lilja_C7_witness :
    ((Bullet.mk ⟨0, 0, 4, 4⟩ 3 false).disabled = false
    ∧ (Bullet.mk ⟨0, 0, 4, 4⟩ 3 false).bounds.overlaps (Enemy.mk ⟨2, 0, 8, 4⟩ 10 5).bounds = true)
    ∧ (Level.handleCollisions (World.mk (Player.mk ⟨50, 50, 60, 60⟩ 10 false false)
          [Enemy.mk ⟨2, 0, 8, 4⟩ 10 5] [Bullet.mk ⟨0, 0, 4, 4⟩ 3 false]
          [⟨100, 100, 110, 110⟩])).1.enemies
        = [Enemy.mk ⟨2, 0, 8, 4⟩ 7 5]
    ∧ (Level.handleCollisions (World.mk (Player.mk ⟨50, 50, 60, 60⟩ 10 false false)
          [Enemy.mk ⟨2, 0, 8, 4⟩ 10 5] [Bullet.mk ⟨0, 0, 4, 4⟩ 3 false]
          [⟨100, 100, 110, 110⟩])).1.bullets
        = [Bullet.mk ⟨0, 0, 4, 4⟩ 3 true]
    ∧ (Level.handleCollisions (World.mk (Player.mk ⟨50, 50, 60, 60⟩ 10 false false)
          [Enemy.mk ⟨2, 0, 8, 4⟩ 10 5] [Bullet.mk ⟨0, 0, 4, 4⟩ 3 false]
          [⟨100, 100, 110, 110⟩])).2.count HitEvent.bulletWall = 0 := by
  have h := lilja_C7 (Player.mk ⟨50, 50, 60, 60⟩ 10 false false)
      (Enemy.mk ⟨2, 0, 8, 4⟩ 10 5) (Bullet.mk ⟨0, 0, 4, 4⟩ 3 false)
      [⟨100, 100, 110, 110⟩] (by decide) (by decide) (by decide)
  exact ⟨⟨by decide, by decide⟩, h.1, h.2.1, h.2.2.1⟩

namespace Lilja

/-- An engine-collaborator call recorded by the level lifecycle. Each
constructor corresponds to one call site in part_000. -/
inductive Call where
  | addTilemap (name : String)
  | addGroup
  | addTilesetImage (tileset key : String)
  | createLayer (name : String)
  | resizeWorld
  | setCollisionByExclusion (excluded : List Nat) (collides : Bool) (layer : Option String) (recalc : Bool)
  | sendToBack
  | addAudio (key : String)
  | createFromObjects (layerName : String) (gid : Nat)
  | configWarning
  | setAllChase
  | setAllGround
  | playAudio (key : String)
  | stopAudio (key : String)
  | playAnimation (name : String)
  | tweenFromX (x : Int) (ms : Nat)
  | dialogueStart (key : String)
  | addText (msg : String)
  | timerRepeat (ms count : Nat)
  | flashToggle
  | enableControls
  | disableControls
  | makeHP
deriving DecidableEq, Repr

/-- The lifecycle state of a `Lilja.Level` instance: the JS object's
fields that the claims depend on, plus the ordered trace of collaborator
calls made so far. Fields never assigned anywhere in part_000
(`layerBg`, `giblets`) are `Option`-valued and stay `none`, modelling
the JS `undefined` read. `startMissionListener` models the one-shot
listener registered with `onFinished.addOnce` (line 153);
`flashRemaining` models the remaining repetitions of the flash timer
(line 178). -/
structure LevelSM where
  name : String
  mapLayer : Option String
  layerBg : Option String
  giblets : Option String
  enemies : Nat
  playerBound : Bool
  startMissionListener : Bool
  controlsDisabled : Bool
  flashRemaining : Nat
  flashVisible : Bool
  trace : List Call
deriving DecidableEq, Repr

/-- The `Lilja.Level` constructor (part_000 lines 10–36): stores the
name, loads the tilemap, creates the enemy group; `mapLayer` is
initialised to `null` and `layerBg`/`giblets` are never initialised at
all (JS `undefined`). -/
def LevelSM.init (name : String) : LevelSM :=
  { name := name
    mapLayer := none
    layerBg := none
    giblets := none
    enemies := 0
    playerBound := false
    startMissionListener := false
    controlsDisabled := false
    flashRemaining := 0
    flashVisible := true
    trace := [Call.addTilemap name, Call.addGroup] }

/-- `Lilja.Level.prototype.create` (part_000 lines 52–73): adds the
tileset, creates the `bg` layer into `mapLayer`, resizes the world, and
calls `setCollisionByExclusion([1, 10], true, this.layerBg, true)` —
reading the `layerBg` field, whatever it holds — then sends the layer
to back and creates the two audio objects. -/
def LevelSM.create (s : LevelSM) : LevelSM :=
  let s1 := { s with trace := s.trace ++ [Call.addTilesetImage "tiles" "tiles"] }
  let s2 := { s1 with mapLayer := some "bg",
                      trace := s1.trace ++ [Call.createLayer "bg", Call.resizeWorld] }
  let s3 := { s2 with trace := s2.trace ++
                        [Call.setCollisionByExclusion [1, 10] true s2.layerBg true] }
  { s3 with trace := s3.trace ++
              [Call.sendToBack, Call.addAudio "intromusic", Call.addAudio "leveldrums"] }

/-- The level's static settings (part_000 lines 44–46): the tile id of
the zombie spawn marker. -/
def LevelSM.zombieID : Nat := 11

/-- The spawn data supplied by the tilemap: the object layers, each a
layer name paired with the tile ids (gids) of its objects. -/
abbrev SpawnEnv : Type := List (String × List Nat)

/-- Look up an object layer by name. -/
def SpawnEnv.find : SpawnEnv → String → Option (List Nat)
  | [], _ => none
  | (n, gids) :: rest, key => if n = key then some gids else SpawnEnv.find rest key

/-- Modelled from the spec: the engine's `Tilemap.createFromObjects`
collaborator called at part_000 line 87 is not repository code under
`src/` (spec section 1 places tilemap parsing in the external engine).
Per the spec's error taxonomy (section 7), a missing-spawn-data
configuration error is "reported once at level load" and "does not
crash the session": when the named object layer is absent the engine
reports a warning and creates nothing; otherwise it creates one enemy
per object whose gid matches the requested marker. It does not throw. -/
def createFromObjectsCollab (env : SpawnEnv) (layerName : String) (gid : Nat) :
    Nat × Bool :=
  match env.find layerName with
  | none => (0, true)
  | some gids => ((gids.filter (fun g => g = gid)).length, false)

/-- `Lilja.Level.prototype.createObjects` (part_000 lines 83–92): binds
the player and bullets, calls `createFromObjects` on the `spawnpoints`
layer with the zombie marker, then unconditionally runs
`setAll('chase', …)` and `setAll('ground', …)` and returns
`this.enemies`. The return value is the enemy group, modelled by its
size. -/
def LevelSM.createObjects (env : SpawnEnv) (s : LevelSM) : LevelSM × Nat :=
  let r := createFromObjectsCollab env "spawnpoints" LevelSM.zombieID
  let s1 := { s with playerBound := true,
                     enemies := s.enemies + r.1,
                     trace := s.trace
                        ++ [Call.createFromObjects "spawnpoints" LevelSM.zombieID]
                        ++ (if r.2 then [Call.configWarning] else [])
                        ++ [Call.setAllChase, Call.setAllGround] }
  (s1, s1.enemies)

/-- `Lilja.Level.prototype.intro` (part_000 lines 106–113): plays the
intro music, disables player controls, plays the walk animation and
starts the walk tween whose completion will fire `_beginIntro`. -/
def LevelSM.intro (s : LevelSM) : LevelSM :=
  { s with controlsDisabled := true,
           trace := s.trace ++
             [Call.playAudio "intromusic", Call.disableControls,
              Call.playAnimation "walk", Call.tweenFromX (-30) 2000] }

/-- `_beginIntro` (part_000 lines 149–154), fired when the walk tween
completes: switches the animation to `stand`, starts the dialogue keyed
by `<name>_intro`, and registers `_startMission` as a one-shot
(`addOnce`) listener on the dialogue's `onFinished` signal. -/
def LevelSM.walkTweenComplete (s : LevelSM) : LevelSM :=
  { s with startMissionListener := true,
           trace := s.trace ++
             [Call.playAnimation "stand", Call.dialogueStart (s.name ++ "_intro")] }

/-- `_startMission` followed by `_showMissionStartText` (part_000 lines
160–180): re-enables player controls, builds the HP display, stops the
intro music, starts the looping level music, then creates the flashing
text and starts the 600 ms × 5 repeat timer. -/
def LevelSM.startMission (s : LevelSM) : LevelSM :=
  let s1 := { s with controlsDisabled := false,
                     trace := s.trace ++
                       [Call.enableControls, Call.makeHP,
                        Call.stopAudio "intromusic", Call.playAudio "leveldrums"] }
  { s1 with flashRemaining := 5,
            trace := s1.trace ++
              [Call.addText "MISSION START", Call.timerRepeat 600 5] }

/-- The dialogue's `onFinished` signal firing. `addOnce` removes the
listener before invoking it, so the handler runs only if the listener
is registered, and a second firing finds no listener. -/
def LevelSM.dialogueFinished (s : LevelSM) : LevelSM :=
  if s.startMissionListener then
    LevelSM.startMission { s with startMissionListener := false }
  else
    s

/-- One firing of the flash repeat timer (part_000 line 178): toggles
the text's visibility; the engine fires it exactly `count` times, which
the model tracks with `flashRemaining`. -/
def LevelSM.flashTick (s : LevelSM) : LevelSM :=
  if 0 < s.flashRemaining then
    { s with flashRemaining := s.flashRemaining - 1,
             flashVisible := !s.flashVisible,
             trace := s.trace ++ [Call.flashToggle] }
  else
    s

/-- Every operation a `Lilja.Level` object supports after construction,
including the externally fired callbacks. -/
inductive LOp where
  | create
  | createObjects (env : SpawnEnv)
  | intro
  | walkTweenComplete
  | dialogueFinished
  | flashTick

/-- Apply one lifecycle operation. -/
def LevelSM.step : LOp → LevelSM → LevelSM
  | LOp.create, s => s.create
  | LOp.createObjects env, s => (s.createObjects env).1
  | LOp.intro, s => s.intro
  | LOp.walkTweenComplete, s => s.walkTweenComplete
  | LOp.dialogueFinished, s => s.dialogueFinished
  | LOp.flashTick, s => s.flashTick

/-- Run a sequence of lifecycle operations from a state. -/
def LevelSM.run (ops : List LOp) (s : LevelSM) : LevelSM :=
  ops.foldl (fun t o => LevelSM.step o t) s

/-- No lifecycle operation assigns `giblets` or `layerBg`. -/
theorem LevelSM.step_preserves_unassigned (o : LOp) (s : LevelSM) :
    (LevelSM.step o s).giblets = s.giblets ∧ (LevelSM.step o s).layerBg = s.layerBg := by
  cases o <;>
    simp [LevelSM.step, LevelSM.create, LevelSM.createObjects, LevelSM.intro,
          LevelSM.walkTweenComplete, LevelSM.dialogueFinished, LevelSM.startMission,
          LevelSM.flashTick] <;>
    split <;> simp [LevelSM.startMission]

/-- `giblets` and `layerBg` stay unassigned along every run. -/
theorem LevelSM.run_unassigned (ops : List LOp) (s : LevelSM) :
    (LevelSM.run ops s).giblets = s.giblets ∧ (LevelSM.run ops s).layerBg = s.layerBg := by
  induction ops generalizing s with
  | nil => exact ⟨rfl, rfl⟩
  | cons o ops ih =>
    have h := LevelSM.step_preserves_unassigned o s
    have h2 := ih (LevelSM.step o s)
    exact ⟨h2.1.trans h.1, h2.2.trans h.2⟩

end Lilja

/-- A `dialogueFinished` firing on a state with no registered listener
is a no-op (`addOnce` already removed the listener). -/
theorem dialogueFinished_no_listener (s : LevelSM)
    (h : s.startMissionListener = false) : LevelSM.dialogueFinished s = s := by
  simp [LevelSM.dialogueFinished, h]

/-- After any `dialogueFinished` firing, the one-shot listener is gone. -/
theorem dialogueFinished_listener (s : LevelSM) :
    (LevelSM.dialogueFinished s).startMissionListener = false := by
  by_cases h : s.startMissionListener = true
  · simp [LevelSM.dialogueFinished, h, LevelSM.startMission]
  · simp only [Bool.not_eq_true] at h
    simp [dialogueFinished_no_listener s h, h]

/-- Iterating `dialogueFinished` on a listenerless state changes
nothing. -/
theorem iterate_dialogueFinished_fixed (n : Nat) (s : LevelSM)
    (h : s.startMissionListener = false) :
    Nat.iterate LevelSM.dialogueFinished n s = s := by
  induction n with
  | zero => rfl
  | succ m ih =>
    rw [Function.iterate_succ_apply, dialogueFinished_no_listener s h, ih]

/-- C4: with the one-shot listener registered (the state reached once
the intro dialogue has started), delivering any N ≥ 1 duplicate
`dialogue finished` signals runs the mission-start side effects exactly
once — the HP display is built exactly one more time than before — and
the extra signals are absorbed as no-ops with the listener cleared. -/
theorem lilja_C4 (n : Nat) (s : LevelSM) (hn : 1 ≤ n)
    (h : s.startMissionListener = true) :
    (Nat.iterate LevelSM.dialogueFinished n s).trace.count Call.makeHP
        = s.trace.count Call.makeHP + 1
    ∧ (Nat.iterate LevelSM.dialogueFinished n s).startMissionListener = false := by
  obtain ⟨m, rfl⟩ : ∃ m, n = m + 1 := ⟨n - 1, by omega⟩
  rw [Function.iterate_succ_apply,
      iterate_dialogueFinished_fixed m _ (dialogueFinished_listener s)]
  refine ⟨?_, dialogueFinished_listener s⟩
  simp [LevelSM.dialogueFinished, h, LevelSM.startMission, List.count_append]

/-- C4 witness: the post-intro state of level `level01` absorbs three
duplicate dialogue-finished signals into a single mission start. -/
theorem lilja_C4_witness :
    1 ≤ 3
    ∧ (LevelSM.walkTweenComplete (LevelSM.intro (LevelSM.init "level01"))).startMissionListener = true
    ∧ ((Nat.iterate LevelSM.dialogueFinished 3
          (LevelSM.walkTweenComplete (LevelSM.intro (LevelSM.init "level01")))).trace.count Call.makeHP
        = (LevelSM.walkTweenComplete (LevelSM.intro (LevelSM.init "level01"))).trace.count Call.makeHP + 1
    ∧ (Nat.iterate LevelSM.dialogueFinished 3
          (LevelSM.walkTweenComplete (LevelSM.intro (LevelSM.init "level01")))).startMissionListener = false) :=
  ⟨by decide, by decide,
   lilja_C4 3 (LevelSM.walkTweenComplete (LevelSM.intro (LevelSM.init "level01")))
     (by decide) (by decide)⟩

/-- C3 counterexample: run the level intro of `level01` through the
walk tween and the dialogue-finished signal. At that point the
mission-start side effects have already run — `enableControls` is in
the trace — while the flashing-text cycle has not performed a single
toggle, so the side effects did not wait for the 5-repetition cycle to
complete; the claim fails at this concrete input. -/
theorem lilja_C3_counterexample :
    Call.enableControls ∈
      (LevelSM.dialogueFinished
        (LevelSM.walkTweenComplete (LevelSM.intro (LevelSM.init "level01")))).trace
    ∧ (LevelSM.dialogueFinished
        (LevelSM.walkTweenComplete (LevelSM.intro (LevelSM.init "level01")))).trace.count
        Call.flashToggle = 0 := by
  decide

/-- C3 amended: the mission-start side effects (re-enabling controls,
building the HP display, stopping intro audio, starting looping level
music) run immediately when the dialogue-finished signal fires, before
the flashing text is created and its 5-repetition 600 ms timer is
started; the flash cycle then runs afterwards. -/
theorem lilja_C3_amended (s : LevelSM) (h : s.startMissionListener = true) :
    (LevelSM.dialogueFinished s).trace =
      s.trace ++ [Call.enableControls, Call.makeHP, Call.stopAudio "intromusic",
                  Call.playAudio "leveldrums", Call.addText "MISSION START",
                  Call.timerRepeat 600 5]
    ∧ (LevelSM.dialogueFinished s).flashRemaining = 5
    ∧ (LevelSM.dialogueFinished s).controlsDisabled = false := by
  simp [LevelSM.dialogueFinished, h, LevelSM.startMission]

/-- C3 amended witness: the concrete post-intro state of `level01`. -/
theorem lilja_C3_witness :
    (LevelSM.walkTweenComplete (LevelSM.intro (LevelSM.init "level01"))).startMissionListener = true
    ∧ ((LevelSM.dialogueFinished
          (LevelSM.walkTweenComplete (LevelSM.intro (LevelSM.init "level01")))).trace =
        (LevelSM.walkTweenComplete (LevelSM.intro (LevelSM.init "level01"))).trace
          ++ [Call.enableControls, Call.makeHP, Call.stopAudio "intromusic",
              Call.playAudio "leveldrums", Call.addText "MISSION START",
              Call.timerRepeat 600 5]
    ∧ (LevelSM.dialogueFinished
          (LevelSM.walkTweenComplete (LevelSM.intro (LevelSM.init "level01")))).flashRemaining = 5
    ∧ (LevelSM.dialogueFinished
          (LevelSM.walkTweenComplete (LevelSM.intro (LevelSM.init "level01")))).controlsDisabled = false) :=
  ⟨by decide,
   lilja_C3_amended (LevelSM.walkTweenComplete (LevelSM.intro (LevelSM.init "level01"))) (by decide)⟩

/-- C5 counterexample: with an empty spawn environment (no
`spawnpoints` object layer at all), `createObjects` on the freshly
created `level01` level does not halt the level's setup: the last trace
entry is `setAllGround` — a setup call issued after the configuration
warning, which is also in the trace — and the function still returns
the (empty) enemy collection; the claim's "halting that level's setup"
fails at this concrete input. -/
theorem lilja_C5_counterexample :
    (LevelSM.createObjects [] (LevelSM.create (LevelSM.init "level01"))).1.trace.getLast?
        = some Call.setAllGround
    ∧ Call.configWarning ∈
        (LevelSM.createObjects [] (LevelSM.create (LevelSM.init "level01"))).1.trace
    ∧ (LevelSM.createObjects [] (LevelSM.create (LevelSM.init "level01"))).2 = 0 := by
  decide

/-- C5 amended: when no spawn data exists for the level's declared
enemy marker, a configuration warning is reported but setup is not
halted — `createObjects` still performs the remaining setup calls and
returns the unchanged (empty) enemy collection; with spawn data present
it returns the collection grown by one enemy per matching marker, with
no warning. -/
theorem lilja_C5_amended (env : SpawnEnv) (s : LevelSM) :
    (SpawnEnv.find env "spawnpoints" = none →
      (LevelSM.createObjects env s).1.trace
        = s.trace ++ [Call.createFromObjects "spawnpoints" LevelSM.zombieID,
                      Call.configWarning, Call.setAllChase, Call.setAllGround]
      ∧ (LevelSM.createObjects env s).2 = s.enemies)
    ∧ (∀ gids, SpawnEnv.find env "spawnpoints" = some gids →
      (LevelSM.createObjects env s).1.trace
        = s.trace ++ [Call.createFromObjects "spawnpoints" LevelSM.zombieID,
                      Call.setAllChase, Call.setAllGround]
      ∧ (LevelSM.createObjects env s).2
          = s.enemies + (gids.filter (fun g => g = LevelSM.zombieID)).length) := by
  constructor
  · intro h
    simp [LevelSM.createObjects, createFromObjectsCollab, h]
  · intro gids hg
    simp [LevelSM.createObjects, createFromObjectsCollab, hg]

/-- C5 amended witness: the missing-layer case on the empty environment
and the populated case on a `spawnpoints` layer holding markers
`[11, 5, 11]` (two zombie markers). -/
theorem lilja_C5_witness :
    ((LevelSM.createObjects [] (LevelSM.create (LevelSM.init "level01"))).1.trace
        = (LevelSM.create (LevelSM.init "level01")).trace
          ++ [Call.createFromObjects "spawnpoints" LevelSM.zombieID,
              Call.configWarning, Call.setAllChase, Call.setAllGround]
    ∧ (LevelSM.createObjects [] (LevelSM.create (LevelSM.init "level01"))).2
        = (LevelSM.create (LevelSM.init "level01")).enemies)
    ∧ (LevelSM.createObjects [("spawnpoints", [11, 5, 11])]
        (LevelSM.create (LevelSM.init "level01"))).2 = 2 :=
  ⟨(lilja_C5_amended [] (LevelSM.create (LevelSM.init "level01"))).1 (by decide),
   by decide⟩

/-- C9: `handleCollisions` issues a sixth collide pass, giblets against
the map layer, as its final call — and along every sequence of level
operations from construction the `giblets` field is never assigned, so
the pass always receives the undefined (`none`) group. -/
theorem lilja_C9 :
    handleCollisionsPasses.length = 6
    ∧ handleCollisionsPasses.getLast? = some (Group.giblets, Group.mapLayer)
    ∧ ∀ (name : String) (ops : List LOp),
        (LevelSM.run ops (LevelSM.init name)).giblets = none := by
  refine ⟨by decide, by decide, fun name ops => ?_⟩
  exact (LevelSM.run_unassigned ops (LevelSM.init name)).1

/-- C10: along every sequence of level operations from construction,
running `create` issues `setCollisionByExclusion([1,10], true, layer,
true)` with `layer = none` — the `layerBg` field it reads is never
assigned anywhere in `Lilja.Level` — while the layer actually created
is stored in `mapLayer`. -/
theorem lilja_C10 (name : String) (ops : List LOp) :
    Call.setCollisionByExclusion [1, 10] true none true
        ∈ (LevelSM.create (LevelSM.run ops (LevelSM.init name))).trace
    ∧ (LevelSM.create (LevelSM.run ops (LevelSM.init name))).mapLayer = some "bg" := by
  have hbg : (LevelSM.run ops (LevelSM.init name)).layerBg = none :=
    (LevelSM.run_unassigned ops (LevelSM.init name)).2
  constructor
  · simp [LevelSM.create, hbg, List.mem_append]
  · simp [LevelSM.create]

namespace Lilja

/-- A bullet as handled by `Lilja.Main` (main.js): the handlers there
inline the decay logic, so the model carries the sprite's `frameName`,
the physics body's `enable` flag, and the number of shrink (decay)
tweens started on the bullet's scale. -/
structure MBullet where
  bounds : AABB
  damage : Int
  frameName : String
  bodyEnable : Bool
  scaleTweens : Nat
deriving DecidableEq, Repr

/-- An enemy as seen by `Lilja.Main`: bounds and health. -/
structure MEnemy where
  bounds : AABB
  health : Int
deriving DecidableEq, Repr

/-- Modelled from the spec: `Lilja.Zombie.prototype.onHit`, called at
main.js line 92, is repository code not under `src/`. Section 4.1 gives
the Bullet–Enemy effect on the enemy as `Damage(bulletDamage)`. -/
def MEnemy.onHit (e : MEnemy) (b : MBullet) : MEnemy :=
  { e with health := e.health - b.damage }

/-- `Lilja.Main.prototype._bulletWallCollision` (main.js lines 79–84):
sets the bullet frame to `bang`, disables its physics body, and starts
a 200 ms scale-to-zero tween — the decay animation — with no guard on
the bullet's current state. -/
def Main.bulletWallCollision (b : MBullet) : MBullet :=
  { b with frameName := "bang", bodyEnable := false,
           scaleTweens := b.scaleTweens + 1 }

/-- `Lilja.Main.prototype._bulletEnemyCollision` (main.js lines 91–97):
`enemy.onHit(bullet)`, then the same unguarded decay sequence as the
wall handler: frame to `bang`, body disabled, a new scale tween. -/
def Main.bulletEnemyCollision (b : MBullet) (e : MEnemy) : MBullet × MEnemy :=
  ({ b with frameName := "bang", bodyEnable := false,
            scaleTweens := b.scaleTweens + 1 },
   e.onHit b)

/-- One bullet against the terrain layer in `Main.update` (main.js line
70); the collide collaborator skips bodies whose `enable` flag is off. -/
def mBulletTilesPass : MBullet → List AABB → MBullet
  | b, [] => b
  | b, t :: ts =>
    if b.bodyEnable && b.bounds.overlaps t then
      mBulletTilesPass (Main.bulletWallCollision b) ts
    else
      mBulletTilesPass b ts

/-- One bullet against the enemy group in `Main.update` (main.js line
71), again skipping disabled bodies. -/
def mBulletEnemiesStep : MBullet → List MEnemy → MBullet × List MEnemy
  | b, [] => (b, [])
  | b, e :: es =>
    if b.bodyEnable && b.bounds.overlaps e.bounds then
      let r := Main.bulletEnemyCollision b e
      let rest := mBulletEnemiesStep r.1 es
      (rest.1, r.2 :: rest.2)
    else
      let rest := mBulletEnemiesStep b es
      (rest.1, e :: rest.2)

/-- The bullets–enemies pass of `Main.update`. -/
def mBulletsEnemiesPass : List MBullet → List MEnemy → List MBullet × List MEnemy
  | [], es => ([], es)
  | b :: bs, es =>
    let r := mBulletEnemiesStep b es
    let rest := mBulletsEnemiesPass bs r.2
    (r.1 :: rest.1, rest.2)

/-- The per-frame state of the `Lilja.Main` game state object. -/
structure MainState where
  running : Bool
  fps : Nat
  fpsText : Nat
  enemies : List MEnemy
  bullets : List MBullet
  terrain : List AABB
deriving DecidableEq, Repr

/-- `Lilja.Main.prototype.update` (main.js lines 65–73): returns
immediately when `_running` is false; otherwise collides player–terrain
and enemies–terrain (pure physical blocking, no modelled effect), then
bullets–terrain with `_bulletWallCollision`, then bullets–enemies with
`_bulletEnemyCollision`, and finally refreshes the FPS counter text. -/
def Main.update (s : MainState) : MainState :=
  if !s.running then s
  else
    let bs1 := s.bullets.map (fun b => mBulletTilesPass b s.terrain)
    let r := mBulletsEnemiesPass bs1 s.enemies
    { s with bullets := r.1, enemies := r.2, fpsText := s.fps }

end Lilja

/-- C8: when the session's `_running` flag is false, `Main.update`
performs no collision resolution and no state mutation at all — the
guard is the first statement of the frame tick. -/
theorem lilja_C8 (s : MainState) (h : s.running = false) :
    Main.update s = s := by
  simp [Main.update, h]

/-- C8 witness: a paused frame in which a live bullet overlaps both a
terrain tile and an enemy; the update step still changes nothing. -/
theorem lilja_C8_witness :
    (MainState.mk false 60 0 [MEnemy.mk ⟨0, 0, 4, 4⟩ 10]
        [MBullet.mk ⟨1, 1, 3, 3⟩ 3 "bullet" true 0] [⟨0, 0, 4, 4⟩]).running = false
    ∧ Main.update (MainState.mk false 60 0 [MEnemy.mk ⟨0, 0, 4, 4⟩ 10]
        [MBullet.mk ⟨1, 1, 3, 3⟩ 3 "bullet" true 0] [⟨0, 0, 4, 4⟩])
      = MainState.mk false 60 0 [MEnemy.mk ⟨0, 0, 4, 4⟩ 10]
        [MBullet.mk ⟨1, 1, 3, 3⟩ 3 "bullet" true 0] [⟨0, 0, 4, 4⟩] :=
  ⟨by decide,
   lilja_C8 (MainState.mk false 60 0 [MEnemy.mk ⟨0, 0, 4, 4⟩ 10]
      [MBullet.mk ⟨1, 1, 3, 3⟩ 3 "bullet" true 0] [⟨0, 0, 4, 4⟩]) (by decide)⟩

/-- C6 counterexample: a bullet already in the disabled state (body
disabled, frame `bang`, one decay tween already started, damage 3) and
an enemy at health 10. Re-invoking `_bulletEnemyCollision` on them
deals the 3 damage again (health drops to 7) and starts a second decay
tween, and re-invoking `_bulletWallCollision` also starts another
tween: the handlers are not idempotent on disabled bullets. -/
theorem lilja_C6_counterexample :
    (Main.bulletEnemyCollision (MBullet.mk ⟨0, 0, 4, 4⟩ 3 "bang" false 1)
        (MEnemy.mk ⟨1, 1, 3, 3⟩ 10)).2.health = 7
    ∧ (Main.bulletEnemyCollision (MBullet.mk ⟨0, 0, 4, 4⟩ 3 "bang" false 1)
        (MEnemy.mk ⟨1, 1, 3, 3⟩ 10)).1.scaleTweens = 2
    ∧ (Main.bulletWallCollision (MBullet.mk ⟨0, 0, 4, 4⟩ 3 "bang" false 1)).scaleTweens = 2 := by
  decide

/-- C6 amended: the hit handlers themselves contain no guard — invoked
directly on an already-disabled bullet, the enemy handler deals the
bullet's damage again and both handlers start one more decay tween
(only the `bang` frame and the disabled body flag are idempotently
re-set); in the collide pass itself a disabled body is skipped by the
engine, which is what prevents re-invocation in practice. -/
theorem lilja_C6_amended (b : MBullet) (e : MEnemy) (h : b.bodyEnable = false) :
    (Main.bulletEnemyCollision b e).2.health = e.health - b.damage
    ∧ (Main.bulletEnemyCollision b e).1.scaleTweens = b.scaleTweens + 1
    ∧ (Main.bulletWallCollision b).scaleTweens = b.scaleTweens + 1
    ∧ (Main.bulletWallCollision b).bodyEnable = false
    ∧ (Main.bulletWallCollision b).frameName = "bang"
    ∧ mBulletTilesPass b [⟨0, 0, 0, 0⟩] = b
    ∧ (mBulletEnemiesStep b [e]).1 = b
    ∧ (mBulletEnemiesStep b [e]).2 = [e] := by
  refine ⟨rfl, rfl, rfl, rfl, rfl, ?_, ?_, ?_⟩
  · simp [mBulletTilesPass, h]
  · simp [mBulletEnemiesStep, h]
  · simp [mBulletEnemiesStep, h]

/-- C6 amended witness: the same concrete disabled bullet and enemy as
the counterexample. -/
theorem lilja_C6_witness :
    (MBullet.mk ⟨0, 0, 4, 4⟩ 3 "bang" false 1).bodyEnable = false
    ∧ ((Main.bulletEnemyCollision (MBullet.mk ⟨0, 0, 4, 4⟩ 3 "bang" false 1)
          (MEnemy.mk ⟨1, 1, 3, 3⟩ 10)).2.health
        = (MEnemy.mk ⟨1, 1, 3, 3⟩ 10).health - (MBullet.mk ⟨0, 0, 4, 4⟩ 3 "bang" false 1).damage
    ∧ (Main.bulletEnemyCollision (MBullet.mk ⟨0, 0, 4, 4⟩ 3 "bang" false 1)
          (MEnemy.mk ⟨1, 1, 3, 3⟩ 10)).1.scaleTweens
        = (MBullet.mk ⟨0, 0, 4, 4⟩ 3 "bang" false 1).scaleTweens + 1
    ∧ (Main.bulletWallCollision (MBullet.mk ⟨0, 0, 4, 4⟩ 3 "bang" false 1)).scaleTweens
        = (MBullet.mk ⟨0, 0, 4, 4⟩ 3 "bang" false 1).scaleTweens + 1
    ∧ (Main.bulletWallCollision (MBullet.mk ⟨0, 0, 4, 4⟩ 3 "bang" false 1)).bodyEnable = false
    ∧ (Main.bulletWallCollision (MBullet.mk ⟨0, 0, 4, 4⟩ 3 "bang" false 1)).frameName = "bang"
    ∧ mBulletTilesPass (MBullet.mk ⟨0, 0, 4, 4⟩ 3 "bang" false 1) [⟨0, 0, 0, 0⟩]
        = MBullet.mk ⟨0, 0, 4, 4⟩ 3 "bang" false 1
    ∧ (mBulletEnemiesStep (MBullet.mk ⟨0, 0, 4, 4⟩ 3 "bang" false 1)
          [MEnemy.mk ⟨1, 1, 3, 3⟩ 10]).1 = MBullet.mk ⟨0, 0, 4, 4⟩ 3 "bang" false 1
    ∧ (mBulletEnemiesStep (MBullet.mk ⟨0, 0, 4, 4⟩ 3 "bang" false 1)
          [MEnemy.mk ⟨1, 1, 3, 3⟩ 10]).2 = [MEnemy.mk ⟨1, 1, 3, 3⟩ 10]) :=
  ⟨by decide,
   lilja_C6_amended (MBullet.mk ⟨0, 0, 4, 4⟩ 3 "bang" false 1)
     (MEnemy.mk ⟨1, 1, 3, 3⟩ 10) (by decide)⟩
